import Mathlib

/-!
Shallow embedding of the `tiberius-async-std` adapter
(`src/tiberius-async-std/src/lib.rs`): the runtime connector
(`connector`, `find_tcp_port`) and the `ClientBuilder` surface, with the
pieces living in the core `tiberius` crate modelled from the
specification where the claims need them.

Network effects (DNS resolution, UDP discovery, TCP connect) are
embedded as explicit environments, and the functions additionally return
a trace of the network operations they performed, so that statements
such as "discovery is never consulted" are about the trace.
-/

/-- A resolved socket address: host (ip) plus port. -/
structure SocketAddr where
  host : String
  port : Nat
deriving DecidableEq, Repr

/-- The kind carried by `std::io::Error`, restricted to the kinds the
adapter constructs or propagates. -/
inductive IoErrorKind
  | notFound
  | timedOut
  | other
deriving DecidableEq, Repr

/-- `std::io::Error`: a kind together with its message. -/
structure IoError where
  kind : IoErrorKind
  message : String
deriving DecidableEq, Repr

/-- The variants of `tiberius::Error` the adapter produces: propagated
I/O errors (the `?` conversion from `std::io::Error`) and
`Error::Conversion` with a message. The last two variants are modelled
from the spec's error taxonomy for the negotiator, which lives in the
core crate. -/
inductive TdsError
  | ioErr (e : IoError)
  | conversion (msg : String)
  | encryptionPolicyMismatch
  | authenticationFailed
deriving DecidableEq, Repr

/-- An `async_std::net::TcpStream` as the connector observes it: the
peer address it was connected to and whether `TCP_NODELAY` is set. -/
structure TcpStream where
  peer : SocketAddr
  nodelay : Bool
deriving DecidableEq, Repr

/-! ## `find_tcp_port` — non-Windows variant (src lines 250-253)

The function immediately returns `Ok(addr)` and touches no socket. The
second component of the result is the UDP datagram sent during the call:
`none` means no datagram was ever sent. -/

/-- Embedding of the `#[cfg(not(windows))]` `find_tcp_port`: returns the
input address unchanged and sends no UDP datagram. -/
def find_tcp_port_unix (addr : SocketAddr) (_instanceName : String) :
    Except TdsError SocketAddr × Option (List Nat) :=
  (Except.ok addr, none)

/-! ## `find_tcp_port` — Windows variant (src lines 255-289) -/

/-- The bounded wait used for the SQL browser reply:
`time::Duration::from_millis(1000)`. -/
def sqlBrowserTimeoutMillis : Nat := 1000

/-- The single discovery-tag byte `4u8` prepended to the instance name
in the UDP request. -/
def discoveryTag : Nat := 4

/-- The UTF-8 bytes of a string, as `instance_name.as_bytes()` yields
them. -/
def utf8Bytes (s : String) : List Nat :=
  s.toUTF8.toList.map UInt8.toNat

/-- The environment of one `find_tcp_port` call on Windows: whether the
local UDP bind and the `send_to` succeed, and the browser's reply — its
arrival time in milliseconds after the send together with its bytes, or
`none` when no reply ever arrives. -/
structure UdpEnv where
  bindErr : Option IoError
  sendErr : Option IoError
  reply : Option (Nat × List Nat)

/-- What `io::timeout(1000ms, socket.recv(&mut buf))` yields: the reply
bytes when a reply arrives within the timeout, `none` when no reply
arrives in time. -/
def recvWithTimeout (env : UdpEnv) : Option (List Nat) :=
  match env.reply with
  | none => none
  | some (t, bytes) => if t ≤ sqlBrowserTimeoutMillis then some bytes else none

/-- The receive buffer is `vec![0u8; 4096]`; `recv` fills its first
`len` bytes with the reply (truncated to the buffer size) and the rest
stays zero. -/
def recvBuf (bytes : List Nat) : List Nat :=
  bytes.take 4096 ++ List.replicate (4096 - (bytes.take 4096).length) 0

/-- The byte count `recv` reports for a reply. -/
def recvLen (bytes : List Nat) : Nat :=
  (bytes.take 4096).length

/-- Embedding of the `#[cfg(windows)]` `find_tcp_port`. It sends the
datagram `[4u8] ++ instance_name.as_bytes()` to `addr`, waits at most
1000 ms for a reply, maps a timeout to
`Error::Conversion("SQL browser timeout during resolving instance {name}")`
and otherwise hands the reply to `tiberius::consume_sql_browser_message`
(a core-crate function, passed here as the parameter `consume`). The
second component of the result is the datagram sent, `none` when the
call failed before sending. -/
def find_tcp_port_windows (env : UdpEnv)
    (consume : SocketAddr → List Nat → Nat → String → Except TdsError SocketAddr)
    (addr : SocketAddr) (instanceName : String) :
    Except TdsError SocketAddr × Option (List Nat) :=
  let msg := discoveryTag :: utf8Bytes instanceName
  match env.bindErr with
  | some e => (Except.error (TdsError.ioErr e), none)
  | none =>
    match env.sendErr with
    | some e => (Except.error (TdsError.ioErr e), none)
    | none =>
      match recvWithTimeout env with
      | none =>
          (Except.error (TdsError.conversion
            ("SQL browser timeout during resolving instance " ++ instanceName)),
           some msg)
      | some bytes =>
          (consume addr (recvBuf bytes) (recvLen bytes) instanceName, some msg)

/-! ## `connector` (src lines 232-248) -/

/-- The environment of one `connector` call: what
`addr.to_socket_addrs()` yields (an error, or the list of resolved
addresses), whether `TcpStream::connect` at a given address fails, and
whether `set_nodelay(true)` fails. -/
structure ConnectorEnv where
  resolved : Except IoError (List SocketAddr)
  connectErr : SocketAddr → Option IoError
  setNodelayErr : Option IoError

/-- One network operation performed by `connector`, in order: DNS
resolution of the host string, an invocation of `find_tcp_port` for an
instance name, or a TCP connect to an address. -/
inductive NetEvent
  | resolve (host : String)
  | discover (addr : SocketAddr) (instanceName : String)
  | tcpConnect (addr : SocketAddr)
deriving DecidableEq, Repr

/-- The tail of `connector` after the address is fixed:
`TcpStream::connect(addr)` followed by `set_nodelay(true)?` and
`Ok(stream)`. -/
def connectPhase (env : ConnectorEnv) (a : SocketAddr) (evs : List NetEvent) :
    Except TdsError TcpStream × List NetEvent :=
  match env.connectErr a with
  | some e => (Except.error (TdsError.ioErr e), evs ++ [NetEvent.tcpConnect a])
  | none =>
    match env.setNodelayErr with
    | some e => (Except.error (TdsError.ioErr e), evs ++ [NetEvent.tcpConnect a])
    | none => (Except.ok { peer := a, nodelay := true }, evs ++ [NetEvent.tcpConnect a])

/-- Embedding of `connector`: resolve the host string, fail with
`NotFound "Could not resolve server host."` when resolution yields no
address, replace the address via `find_tcp_port` when an instance name
is configured, then connect and enable `TCP_NODELAY`. `findTcpPort` is
the platform-selected `find_tcp_port` of the build (its network trace is
reduced to the `NetEvent.discover` invocation record). -/
def connector (env : ConnectorEnv)
    (findTcpPort : SocketAddr → String → Except TdsError SocketAddr)
    (addrStr : String) (instanceName : Option String) :
    Except TdsError TcpStream × List NetEvent :=
  match env.resolved with
  | Except.error e => (Except.error (TdsError.ioErr e), [NetEvent.resolve addrStr])
  | Except.ok [] =>
      (Except.error (TdsError.ioErr
        { kind := IoErrorKind.notFound, message := "Could not resolve server host." }),
       [NetEvent.resolve addrStr])
  | Except.ok (a :: _) =>
    match instanceName with
    | none => connectPhase env a [NetEvent.resolve addrStr]
    | some inst =>
      match findTcpPort a inst with
      | Except.error e =>
          (Except.error e, [NetEvent.resolve addrStr, NetEvent.discover a inst])
      | Except.ok a2 =>
          connectPhase env a2 [NetEvent.resolve addrStr, NetEvent.discover a inst]

/-! ## `ClientBuilder` configuration surface (src lines 148-229)

The setter methods in src delegate to the core crate's builder; the
stored configuration and its defaults are modelled from the spec. -/

/-- The encryption levels of `tiberius::EncryptionLevel` as the spec
lists them. -/
inductive EncryptionLevel
  | off
  | loginOnly
  | required
deriving DecidableEq, Repr

/-- The authentication methods of `tiberius::AuthMethod` as the spec
lists them. -/
inductive AuthMethod
  | sqlServer (user password : String)
  | integrated
  | aadToken (token : String)
deriving DecidableEq, Repr

/-- The connection configuration accumulated by `ClientBuilder`.
Options the caller has not set are `none` (resp. `false` for the
`trust_cert` flag). -/
structure Config where
  host : String
  port : Nat
  database : String
  instanceName : Option String
  encryption : Option EncryptionLevel
  trustCert : Bool
  auth : Option AuthMethod
deriving DecidableEq, Repr

/-- Modelled from the spec: the builder's defaults live in the core
`tiberius` crate (outside src/); per the spec and the src doc comments,
host defaults to `localhost`, port to `1433`, database to `master`, and
the remaining options are unset until the caller sets them. -/
def Config.default : Config :=
  { host := "localhost"
  , port := 1433
  , database := "master"
  , instanceName := none
  , encryption := none
  , trustCert := false
  , auth := none }

/-- The configuration options exposed by `ClientBuilder`: exactly the
setter methods `host`, `port`, `database`, `instance_name`,
`encryption`, `trust_cert` and `authentication` of src lines 180-228. -/
inductive BuilderOption
  | host (h : String)
  | port (p : Nat)
  | database (d : String)
  | instanceName (n : String)
  | encryption (e : EncryptionLevel)
  | trustCert
  | authentication (a : AuthMethod)
deriving DecidableEq, Repr

/-- Applying one setter method to the accumulated configuration, as the
src setters do through the core builder. -/
def applyOption (c : Config) : BuilderOption → Config
  | BuilderOption.host h => { c with host := h }
  | BuilderOption.port p => { c with port := p }
  | BuilderOption.database d => { c with database := d }
  | BuilderOption.instanceName n => { c with instanceName := some n }
  | BuilderOption.encryption e => { c with encryption := some e }
  | BuilderOption.trustCert => { c with trustCert := true }
  | BuilderOption.authentication a => { c with auth := some a }

/-! ## Parameter binding (core crate, modelled from the spec) -/

/-- The placeholder name for the parameter with 1-based index `n`. -/
def placeholderName (n : Nat) : String := "@P" ++ toString n

/-- Modelled from the spec: `Client::execute` and `Client::query`
delegate substitution to the core `tiberius` crate (outside src/);
per the spec, parameters are bound positionally to `@P<N>` placeholders,
1-indexed. `bindParamsFrom k` pairs a parameter list with the
placeholder names `@Pk`, `@P(k+1)`, …  -/
def bindParamsFrom (k : Nat) : List α → List (String × α)
  | [] => []
  | p :: ps => (placeholderName k, p) :: bindParamsFrom (k + 1) ps

/-- Modelled from the spec: the positional parameter binding of an RPC
request, starting at `@P1`. -/
def bindParams (params : List α) : List (String × α) :=
  bindParamsFrom 1 params

/-! ## `ClientBuilder::build` and the Session Negotiator
(core crate, modelled from the spec) -/

/-- The states of the Session Negotiator state machine as the spec lists
them. -/
inductive SessionState
  | disconnected
  | preLoginSent
  | preLoginAckReceived
  | encryptionHandshake
  | loginSent
  | authenticated
  | ready
  | failed (reason : String)
deriving DecidableEq, Repr

/-- A negotiated session: its state-machine state. -/
structure Session where
  state : SessionState
deriving DecidableEq, Repr

/-- The adapter's `Client`, wrapping the core client's session. -/
structure ClientModel where
  session : Session
deriving DecidableEq, Repr

/-- The server-side outcomes one handshake can meet: whether the
pre-login exchange fails at the transport, whether the server mandates
encryption, whether the TLS layering fails, and whether the server
accepts the login. -/
structure HandshakeEnv where
  preLoginErr : Option IoError
  serverRequiresEncryption : Bool
  tlsErr : Option IoError
  loginAccepted : Bool

/-- Modelled from the spec: the Session Negotiator (core crate, outside
src/) drives pre-login, optional TLS layering and login; on success the
session transitions to `Ready`, every failure is surfaced as an error
and no session is produced. -/
def negotiate (cfg : Config) (env : HandshakeEnv) : Except TdsError Session :=
  match env.preLoginErr with
  | some e => Except.error (TdsError.ioErr e)
  | none =>
    if env.serverRequiresEncryption ∧ cfg.encryption = some EncryptionLevel.off then
      Except.error TdsError.encryptionPolicyMismatch
    else
      match env.tlsErr with
      | some e => Except.error (TdsError.ioErr e)
      | none =>
        if env.loginAccepted then
          Except.ok { state := SessionState.ready }
        else
          Except.error TdsError.authenticationFailed

/-- Modelled from the spec: `ClientBuilder::build` (src lines 169-172
delegating to the core crate) runs the connector and then the full
Session Negotiator handshake, yielding a ready `Client` or the first
error met. -/
def build (cfg : Config) (cenv : ConnectorEnv) (henv : HandshakeEnv)
    (findTcpPort : SocketAddr → String → Except TdsError SocketAddr) :
    Except TdsError ClientModel :=
  match (connector cenv findTcpPort cfg.host cfg.instanceName).1 with
  | Except.error e => Except.error e
  | Except.ok _stream =>
    match negotiate cfg henv with
    | Except.error e => Except.error e
    | Except.ok s => Except.ok { session := s }

/-! ## Helper lemmas -/

theorem connectPhase_snd (env : ConnectorEnv) (a : SocketAddr) (evs : List NetEvent) :
    (connectPhase env a evs).2 = evs ++ [NetEvent.tcpConnect a] := by
  unfold connectPhase
  cases env.connectErr a with
  | some e => rfl
  | none =>
    cases env.setNodelayErr with
    | some e => rfl
    | none => rfl

theorem connectPhase_ok (env : ConnectorEnv) (a : SocketAddr) (evs : List NetEvent)
    (s : TcpStream) (h : (connectPhase env a evs).1 = Except.ok s) :
    s = { peer := a, nodelay := true } := by
  unfold connectPhase at h
  cases henv : env.connectErr a with
  | some e => rw [henv] at h; exact absurd h (by simp)
  | none =>
    rw [henv] at h
    cases hnd : env.setNodelayErr with
    | some e => rw [hnd] at h; exact absurd h (by simp)
    | none =>
      rw [hnd] at h
      simpa using h.symm

theorem negotiate_ok (cfg : Config) (env : HandshakeEnv) (s : Session)
    (h : negotiate cfg env = Except.ok s) : s = { state := SessionState.ready } := by
  unfold negotiate at h
  cases hpl : env.preLoginErr with
  | some e => rw [hpl] at h; exact absurd h (by simp)
  | none =>
    rw [hpl] at h
    by_cases henc : env.serverRequiresEncryption ∧ cfg.encryption = some EncryptionLevel.off
    · rw [if_pos henc] at h; exact absurd h (by simp)
    · rw [if_neg henc] at h
      cases htls : env.tlsErr with
      | some e => rw [htls] at h; exact absurd h (by simp)
      | none =>
        rw [htls] at h
        by_cases hlog : env.loginAccepted
        · rw [if_pos hlog] at h; simpa using h.symm
        · rw [if_neg hlog] at h; exact absurd h (by simp)

/-! ## Claims -/

/-- C1: if no UDP reply to the instance-discovery request arrives within
the bounded wait of 1000 milliseconds, `find_tcp_port` fails with the
timeout error `Error::Conversion("SQL browser timeout during resolving
instance {instance_name}")`, which names the instance being resolved,
instead of waiting indefinitely. -/
theorem C1_find_tcp_port_timeout (env : UdpEnv)
    (consume : SocketAddr → List Nat → Nat → String → Except TdsError SocketAddr)
    (addr : SocketAddr) (instanceName : String)
    (hbind : env.bindErr = none) (hsend : env.sendErr = none)
    (hlate : ∀ t bytes, env.reply = some (t, bytes) → sqlBrowserTimeoutMillis < t) :
    (find_tcp_port_windows env consume addr instanceName).1 =
      Except.error (TdsError.conversion
        ("SQL browser timeout during resolving instance " ++ instanceName)) := by
  have hrecv : recvWithTimeout env = none := by
    cases hrep : env.reply with
    | none => simp [recvWithTimeout, hrep]
    | some tb =>
      obtain ⟨t, bytes⟩ := tb
      simp [recvWithTimeout, hrep, Nat.not_le.mpr (hlate t bytes hrep)]
  simp [find_tcp_port_windows, hbind, hsend, hrecv]

theorem C1_witness :
    (find_tcp_port_windows ⟨none, none, none⟩ (fun a _ _ _ => Except.ok a)
        ⟨"10.0.0.1", 1434⟩ "MSSQLSERVER").1 =
      Except.error (TdsError.conversion
        ("SQL browser timeout during resolving instance " ++ "MSSQLSERVER")) :=
  C1_find_tcp_port_timeout ⟨none, none, none⟩ (fun a _ _ _ => Except.ok a)
    ⟨"10.0.0.1", 1434⟩ "MSSQLSERVER" rfl rfl (fun _ _ h => by simp at h)

/-- C2: whenever the discovery request goes out, the UDP datagram is
exactly the discovery-tag byte `0x04` followed by the UTF-8 bytes of the
instance name, and any reply arriving in time is handed to
`consume_sql_browser_message` together with the target address, the
receive buffer, the received length and the instance name being
matched. -/
theorem C2_discovery_datagram (env : UdpEnv)
    (consume : SocketAddr → List Nat → Nat → String → Except TdsError SocketAddr)
    (addr : SocketAddr) (instanceName : String)
    (hbind : env.bindErr = none) (hsend : env.sendErr = none) :
    (find_tcp_port_windows env consume addr instanceName).2 =
      some (discoveryTag :: utf8Bytes instanceName) ∧
    (∀ bytes, recvWithTimeout env = some bytes →
      (find_tcp_port_windows env consume addr instanceName).1 =
        consume addr (recvBuf bytes) (recvLen bytes) instanceName) := by
  constructor
  · unfold find_tcp_port_windows
    rw [hbind, hsend]
    cases hrecv : recvWithTimeout env with
    | none => rfl
    | some bytes => rfl
  · intro bytes hrecv
    unfold find_tcp_port_windows
    rw [hbind, hsend, hrecv]

theorem C2_witness :
    (find_tcp_port_windows ⟨none, none, some (5, [42, 7])⟩ (fun a _ _ _ => Except.ok a)
        ⟨"10.0.0.1", 1434⟩ "SQLEXPRESS").2 =
      some (discoveryTag :: utf8Bytes "SQLEXPRESS") ∧
    (find_tcp_port_windows ⟨none, none, some (5, [42, 7])⟩ (fun a _ _ _ => Except.ok a)
        ⟨"10.0.0.1", 1434⟩ "SQLEXPRESS").1 =
      (fun (a : SocketAddr) (_ : List Nat) (_ : Nat) (_ : String) => Except.ok a)
        ⟨"10.0.0.1", 1434⟩ (recvBuf [42, 7]) (recvLen [42, 7]) "SQLEXPRESS" :=
  ⟨(C2_discovery_datagram ⟨none, none, some (5, [42, 7])⟩ (fun a _ _ _ => Except.ok a)
      ⟨"10.0.0.1", 1434⟩ "SQLEXPRESS" rfl rfl).1,
   (C2_discovery_datagram ⟨none, none, some (5, [42, 7])⟩ (fun a _ _ _ => Except.ok a)
      ⟨"10.0.0.1", 1434⟩ "SQLEXPRESS" rfl rfl).2 [42, 7] rfl⟩

/-- C8: on non-Windows platforms `find_tcp_port` is the identity on the
socket address: for every address and instance name it returns `Ok` with
the input address unchanged and sends no UDP datagram. -/
theorem C8_find_tcp_port_unix_identity (addr : SocketAddr) (instanceName : String) :
    find_tcp_port_unix addr instanceName = (Except.ok addr, none) :=
  rfl

theorem bindParamsFrom_get? (l : List α) (k i : Nat) :
    (bindParamsFrom k l).get? i =
      (l.get? i).map (fun p => (placeholderName (k + i), p)) := by
  induction l generalizing k i with
  | nil => simp [bindParamsFrom]
  | cons p ps ih =>
    cases i with
    | zero => simp [bindParamsFrom]
    | succ j =>
      simp only [bindParamsFrom, List.get?]
      rw [ih (k + 1) j]
      have : k + 1 + j = k + (j + 1) := by omega
      rw [this]

/-- C4: parameters are bound positionally, 1-indexed: the `i`-th element
of the parameter list (0-based position `i`) is bound to the placeholder
`@P(i+1)`, so the first element binds to `@P1`, the second to `@P2`, and
so on. -/
theorem C4_positional_binding {α : Type} (params : List α) (i : Nat) :
    (bindParams params).get? i =
      (params.get? i).map (fun p => (placeholderName (i + 1), p)) := by
  unfold bindParams
  rw [bindParamsFrom_get? params 1 i, Nat.add_comm 1 i]

/-- C5: the builder's defaults are port `1433`, database `"master"` and
host `"localhost"`, and each of the recognized options — `host`, `port`,
`database`, `instance_name`, `encryption`, `trust_cert`,
`authentication` (the constructors of `BuilderOption`) — sets the
corresponding configuration field. -/
theorem C5_builder_defaults_and_options :
    Config.default.port = 1433 ∧
    Config.default.database = "master" ∧
    Config.default.host = "localhost" ∧
    (∀ c h, (applyOption c (BuilderOption.host h)).host = h) ∧
    (∀ c p, (applyOption c (BuilderOption.port p)).port = p) ∧
    (∀ c d, (applyOption c (BuilderOption.database d)).database = d) ∧
    (∀ c n, (applyOption c (BuilderOption.instanceName n)).instanceName = some n) ∧
    (∀ c e, (applyOption c (BuilderOption.encryption e)).encryption = some e) ∧
    (∀ c, (applyOption c BuilderOption.trustCert).trustCert = true) ∧
    (∀ c a, (applyOption c (BuilderOption.authentication a)).auth = some a) :=
  ⟨rfl, rfl, rfl, fun _ _ => rfl, fun _ _ => rfl, fun _ _ => rfl, fun _ _ => rfl,
   fun _ _ => rfl, fun _ => rfl, fun _ _ => rfl⟩

/-- C6: when resolution succeeds and an instance name is configured, the
connector invokes `find_tcp_port` on the first resolved address and
opens the TCP connection to the address that `find_tcp_port` returned
(the trace is resolve, then discover, then connect at the replaced
address, and any stream returned is connected to the replaced address);
when no instance name is configured, discovery is never consulted and
the TCP connection goes to the resolved address directly. -/
theorem C6_instance_discovery (env : ConnectorEnv)
    (f : SocketAddr → String → Except TdsError SocketAddr)
    (host : String) (a : SocketAddr) (rest : List SocketAddr)
    (hres : env.resolved = Except.ok (a :: rest)) :
    (∀ n a2, f a n = Except.ok a2 →
      (connector env f host (some n)).2 =
        [NetEvent.resolve host, NetEvent.discover a n, NetEvent.tcpConnect a2] ∧
      ∀ s, (connector env f host (some n)).1 = Except.ok s → s.peer = a2) ∧
    ((connector env f host none).2 = [NetEvent.resolve host, NetEvent.tcpConnect a] ∧
     (∀ a' i, NetEvent.discover a' i ∉ (connector env f host none).2) ∧
     ∀ s, (connector env f host none).1 = Except.ok s → s.peer = a) := by
  constructor
  · intro n a2 hf
    have hconn : connector env f host (some n) =
        connectPhase env a2 [NetEvent.resolve host, NetEvent.discover a n] := by
      simp [connector, hres, hf]
    constructor
    · rw [hconn, connectPhase_snd]; rfl
    · intro s hs
      rw [hconn] at hs
      rw [connectPhase_ok env a2 _ s hs]
  · have hconn : connector env f host none =
        connectPhase env a [NetEvent.resolve host] := by
      simp [connector, hres]
    refine ⟨?_, ?_, ?_⟩
    · rw [hconn, connectPhase_snd]; rfl
    · intro a' i hmem
      rw [hconn, connectPhase_snd] at hmem
      simp at hmem
    · intro s hs
      rw [hconn] at hs
      rw [connectPhase_ok env a _ s hs]

theorem C6_witness :
    (connector ⟨Except.ok [⟨"10.0.0.1", 1433⟩], fun _ => none, none⟩
        (fun _ _ => Except.ok ⟨"10.0.0.1", 50123⟩) "srv" (some "SQLEXPRESS")).2 =
      [NetEvent.resolve "srv", NetEvent.discover ⟨"10.0.0.1", 1433⟩ "SQLEXPRESS",
       NetEvent.tcpConnect ⟨"10.0.0.1", 50123⟩] ∧
    (connector ⟨Except.ok [⟨"10.0.0.1", 1433⟩], fun _ => none, none⟩
        (fun _ _ => Except.ok ⟨"10.0.0.1", 50123⟩) "srv" none).2 =
      [NetEvent.resolve "srv", NetEvent.tcpConnect ⟨"10.0.0.1", 1433⟩] :=
  ⟨((C6_instance_discovery ⟨Except.ok [⟨"10.0.0.1", 1433⟩], fun _ => none, none⟩
      (fun _ _ => Except.ok ⟨"10.0.0.1", 50123⟩) "srv" ⟨"10.0.0.1", 1433⟩ [] rfl).1
      "SQLEXPRESS" ⟨"10.0.0.1", 50123⟩ rfl).1,
   ((C6_instance_discovery ⟨Except.ok [⟨"10.0.0.1", 1433⟩], fun _ => none, none⟩
      (fun _ _ => Except.ok ⟨"10.0.0.1", 50123⟩) "srv" ⟨"10.0.0.1", 1433⟩ [] rfl).2).1⟩

/-- C7: `ClientBuilder::build` performs the connect-and-handshake
sequence and either yields a ready `Client` or returns an error: any
`Client` it yields wraps a session in the `Ready` state. -/
theorem C7_build_ready (cfg : Config) (cenv : ConnectorEnv) (henv : HandshakeEnv)
    (f : SocketAddr → String → Except TdsError SocketAddr) (c : ClientModel)
    (h : build cfg cenv henv f = Except.ok c) :
    c.session.state = SessionState.ready := by
  unfold build at h
  cases hc : (connector cenv f cfg.host cfg.instanceName).1 with
  | error e => rw [hc] at h; exact absurd h (by simp)
  | ok stream =>
    rw [hc] at h
    cases hn : negotiate cfg henv with
    | error e => rw [hn] at h; exact absurd h (by simp)
    | ok s =>
      rw [hn] at h
      have hs := negotiate_ok cfg henv s hn
      have : c = { session := s } := by simpa using h.symm
      rw [this, hs]

theorem C7_witness :
    build { Config.default with host := "srv" }
        ⟨Except.ok [⟨"10.0.0.1", 1433⟩], fun _ => none, none⟩
        ⟨none, false, none, true⟩ (fun a _ => Except.ok a) =
      Except.ok { session := { state := SessionState.ready } } ∧
    ({ session := { state := SessionState.ready } } : ClientModel).session.state =
      SessionState.ready :=
  ⟨rfl,
   C7_build_ready { Config.default with host := "srv" }
     ⟨Except.ok [⟨"10.0.0.1", 1433⟩], fun _ => none, none⟩
     ⟨none, false, none, true⟩ (fun a _ => Except.ok a)
     { session := { state := SessionState.ready } } rfl⟩

/-- C9: when resolution yields no socket address, the connector fails
with the `NotFound` error `"Could not resolve server host."`, and its
trace holds only the resolution — no discovery request and no TCP
connect ever happen. -/
theorem C9_resolution_failure (env : ConnectorEnv)
    (f : SocketAddr → String → Except TdsError SocketAddr)
    (host : String) (inst : Option String)
    (hres : env.resolved = Except.ok []) :
    (connector env f host inst).1 =
      Except.error (TdsError.ioErr
        { kind := IoErrorKind.notFound, message := "Could not resolve server host." }) ∧
    (∀ a i, NetEvent.discover a i ∉ (connector env f host inst).2) ∧
    (∀ a, NetEvent.tcpConnect a ∉ (connector env f host inst).2) := by
  have hconn : connector env f host inst =
      (Except.error (TdsError.ioErr
        { kind := IoErrorKind.notFound, message := "Could not resolve server host." }),
       [NetEvent.resolve host]) := by
    simp [connector, hres]
  refine ⟨?_, ?_, ?_⟩
  · rw [hconn]
  · intro a i hmem
    rw [hconn] at hmem
    simp at hmem
  · intro a hmem
    rw [hconn] at hmem
    simp at hmem

theorem C9_witness :
    (connector ⟨Except.ok [], fun _ => none, none⟩ (fun a _ => Except.ok a)
        "db.example.com" none).1 =
      Except.error (TdsError.ioErr
        { kind := IoErrorKind.notFound, message := "Could not resolve server host." }) :=
  (C9_resolution_failure ⟨Except.ok [], fun _ => none, none⟩ (fun a _ => Except.ok a)
    "db.example.com" none rfl).1

/-- C10: every stream the connector returns has `TCP_NODELAY` enabled,
and when `set_nodelay(true)` fails after a successful connect, the
connector returns that error instead of a stream. -/
theorem C10_nodelay (env : ConnectorEnv)
    (f : SocketAddr → String → Except TdsError SocketAddr)
    (host : String) (inst : Option String) :
    (∀ s, (connector env f host inst).1 = Except.ok s → s.nodelay = true) ∧
    (∀ a rest e, env.resolved = Except.ok (a :: rest) → inst = none →
      env.connectErr a = none → env.setNodelayErr = some e →
      (connector env f host inst).1 = Except.error (TdsError.ioErr e)) := by
  constructor
  · intro s hs
    unfold connector at hs
    cases hres : env.resolved with
    | error e => rw [hres] at hs; exact absurd hs (by simp)
    | ok addrs =>
      rw [hres] at hs
      cases addrs with
      | nil => exact absurd hs (by simp)
      | cons a tl =>
        cases inst with
        | none =>
          simp only at hs
          rw [connectPhase_ok env a _ s hs]
        | some n =>
          simp only at hs
          cases hf : f a n with
          | error e => rw [hf] at hs; exact absurd hs (by simp)
          | ok a2 =>
            rw [hf] at hs
            rw [connectPhase_ok env a2 _ s hs]
  · intro a rest e hres hinst hconn hnd
    subst hinst
    have : connector env f host none = connectPhase env a [NetEvent.resolve host] := by
      simp [connector, hres]
    rw [this]
    simp [connectPhase, hconn, hnd]

theorem C10_witness :
    (TcpStream.mk ⟨"10.0.0.1", 1433⟩ true).nodelay = true ∧
    (connector ⟨Except.ok [⟨"10.0.0.1", 1433⟩], fun _ => none,
        some ⟨IoErrorKind.other, "nodelay failed"⟩⟩
        (fun a _ => Except.ok a) "srv" none).1 =
      Except.error (TdsError.ioErr ⟨IoErrorKind.other, "nodelay failed"⟩) :=
  ⟨(C10_nodelay ⟨Except.ok [⟨"10.0.0.1", 1433⟩], fun _ => none, none⟩
      (fun a _ => Except.ok a) "srv" none).1 ⟨⟨"10.0.0.1", 1433⟩, true⟩ rfl,
   (C10_nodelay ⟨Except.ok [⟨"10.0.0.1", 1433⟩], fun _ => none,
      some ⟨IoErrorKind.other, "nodelay failed"⟩⟩
      (fun a _ => Except.ok a) "srv" none).2 ⟨"10.0.0.1", 1433⟩ []
      ⟨IoErrorKind.other, "nodelay failed"⟩ rfl rfl rfl rfl⟩
